import Mathlib

/-!
Verification of the motion command arbitration layer of the Sheikah AI car
control web client (`js/controls.js`, `js/voice.js`, `js/main.js`, `js/map.js`).

The JavaScript is embedded shallowly:
* numbers are exact rationals/integers (`ℚ`, `ℤ`) — the claims under study are
  about exact arithmetic on small values where IEEE doubles are exact;
* the joystick geometry front end (`Math.atan2`, `Math.sqrt`) is carried as a
  precomputed sample `(angleDeg, dist)`: `updateMovement` only ever consumes
  the angle (converted to degrees) and the distance, and for axis-aligned
  offsets both functions have exact rational values, which `moveSampleOfOffset`
  provides;
* DOM state touched by the handlers (the `currentMovement` record, the
  `isDragging` flag, the speed slider, the destination `<select>`) becomes
  explicit state records, and outgoing `sendMovementCommand` / button-click /
  API effects become traces accumulated in those records;
* `setTimeout` becomes a list of pending `(fireTime, button)` timers; the code
  never stores or clears the voice auto-stop timers, so no modelled operation
  removes them, and `fireDue` delivers every timer that has come due.
-/

namespace SheikahCar

/- ### Direction classifier and joystick adapter (`js/controls.js`) -/

/-- The five command directions of the motion API (`forward|backward|left|right|stop`). -/
inductive Direction
  | forward
  | backward
  | left
  | right
  | stop
deriving DecidableEq, Repr

/-- An outgoing movement command `(direction, speed)` as passed to
`sendMovementCommand(direction, speed)` in `controls.js`. -/
abbrev Command := Direction × ℤ

/-- Maximum joystick movement radius, `const maxDistance = 50` (controls.js line 28). -/
def maxDistance : ℚ := 50

/-- The angle-bucket chain of `updateMovement` (controls.js lines 135-141):

    if (angleDeg > -45 && angleDeg <= 45) direction = 'right';
    else if (angleDeg > 45 && angleDeg <= 135) direction = 'backward';
    else if (angleDeg > 135 || angleDeg <= -135) direction = 'left';
    else direction = 'forward';

`angleDeg` is the joystick angle in degrees. -/
def classifyDirection (angleDeg : ℚ) : Direction :=
  if -45 < angleDeg ∧ angleDeg ≤ 45 then .right
  else if 45 < angleDeg ∧ angleDeg ≤ 135 then .backward
  else if 135 < angleDeg ∨ angleDeg ≤ -135 then .left
  else .forward

/-- Modelled from the spec: the bucket table of spec §4.1 / §8, stated in the
words of the spec, for comparison with `classifyDirection`:
angleDeg ∈ (−45,45] → right; (45,135] → backward;
(135,180] ∪ (−180,−135] → left; (−135,−45] → forward (out-of-range angles
never come out of atan2 and default to forward here). -/
def specBucket (angleDeg : ℚ) : Direction :=
  if -45 < angleDeg ∧ angleDeg ≤ 45 then .right
  else if 45 < angleDeg ∧ angleDeg ≤ 135 then .backward
  else if (135 < angleDeg ∧ angleDeg ≤ 180) ∨ (-180 < angleDeg ∧ angleDeg ≤ -135) then .left
  else .forward

/-- The `currentMovement` record of `initMovementControls` (controls.js lines
16-20): the angle (kept in degrees in the model — the code stores radians and
converts to degrees inside `updateMovement`, the only consumer), the
normalized distance in [0,1], and the speed-slider value. -/
structure CurrentMovement where
  angle : ℚ
  distance : ℚ
  speed : ℤ
deriving DecidableEq, Repr

/-- The joystick closure state: the `isDragging` flag, `currentMovement`, and
the direction last rendered by `updateButtonState`. -/
structure JoyState where
  isDragging : Bool
  movement : CurrentMovement
  buttonState : Direction
deriving DecidableEq, Repr

/-- One pointer-move sample: the values `Math.atan2(deltaY, deltaX)` (already
converted to degrees) and `Math.sqrt(deltaX² + deltaY²)` computed by
`handleMove` (controls.js lines 57-60) for the current offset. -/
structure MoveSample where
  angleDeg : ℚ
  dist : ℚ
deriving DecidableEq, Repr

/-- Exact value of `Math.atan2(dy, dx)` in degrees for axis-aligned offsets,
the inputs where atan2 is rational: `atan2(0, x≥0) = 0` (including
`atan2(0,0) = 0` per the JavaScript semantics), `atan2(0, x<0) = π` (180°),
`atan2(y>0, 0) = π/2` (90°), `atan2(y<0, 0) = −π/2` (−90°). Off-axis offsets
have irrational angles and yield `none`. -/
def atan2DegOnAxis (dy dx : ℚ) : Option ℚ :=
  if dy = 0 then (if 0 ≤ dx then some 0 else some 180)
  else if dx = 0 then (if 0 < dy then some 90 else some (-90))
  else none

/-- Exact value of `Math.sqrt(dx² + dy²)` for axis-aligned offsets. -/
def sqrtOnAxis (dx dy : ℚ) : Option ℚ :=
  if dy = 0 then some |dx|
  else if dx = 0 then some |dy|
  else none

/-- The geometry front end of `handleMove` evaluated exactly for an
axis-aligned offset `(dx, dy)`: the angle in degrees and the raw distance. -/
def moveSampleOfOffset (dx dy : ℚ) : Option MoveSample :=
  match atan2DegOnAxis dy dx, sqrtOnAxis dx dy with
  | some a, some d => some ⟨a, d⟩
  | _, _ => none

/-- The command computed by `updateMovement` (controls.js lines 125-147) from a
`currentMovement` record: the angle bucket and
`scaledSpeed = Math.round(currentMovement.speed * distance)`.
The `round` of Mathlib is `⌊x + 1/2⌋`, which is exactly the round-half-up
behaviour of `Math.round`. -/
def updateMovementCmd (m : CurrentMovement) : Command :=
  (classifyDirection m.angle, round ((m.speed : ℚ) * m.distance))

/-- `handleMove` (controls.js lines 47-75): a no-op unless a drag is active;
otherwise clamps the distance to `maxDistance`, stores the angle and the
normalized distance into `currentMovement`, and calls `updateMovement`,
which sends one command. Returns the new state and the commands sent. -/
def handleMove (s : MoveSample) (st : JoyState) : JoyState × List Command :=
  if st.isDragging = false then (st, [])
  else
    let distance := min s.dist maxDistance
    let m : CurrentMovement :=
      { angle := s.angleDeg, distance := distance / maxDistance, speed := st.movement.speed }
    ({ st with movement := m }, [updateMovementCmd m])

/-- `handleEnd` (controls.js lines 77-102): a no-op unless a drag is active;
otherwise clears `isDragging`, resets `currentMovement` to
`{angle: 0, distance: 0, speed: <kept>}`, sends `('stop', 0)` once, and
renders the stop button active via `updateButtonState('stop')`. -/
def handleEnd (st : JoyState) : JoyState × List Command :=
  if st.isDragging = false then (st, [])
  else
    ({ isDragging := false
       movement := { angle := 0, distance := 0, speed := st.movement.speed }
       buttonState := .stop },
     [(.stop, 0)])

/-- Fold a sequence of move events through `handleMove`, keeping the state. -/
def runMoves (ss : List MoveSample) (st : JoyState) : JoyState :=
  ss.foldl (fun st s => (handleMove s st).1) st

/-- A concrete dragging joystick state (drag active, slider at 50). -/
def joyDragging50 : JoyState :=
  { isDragging := true, movement := { angle := 0, distance := 0, speed := 50 }
    buttonState := .stop }

/-- A concrete idle joystick state (no drag active). -/
def joyIdle : JoyState :=
  { isDragging := false, movement := { angle := 30, distance := 1/2, speed := 50 }
    buttonState := .stop }

/-- The dragging state of the spec §8 scenario: speed slider at 80. -/
def joyScenario80 : JoyState :=
  { isDragging := true, movement := { angle := 0, distance := 0, speed := 80 }
    buttonState := .stop }

/- ### Keyboard adapter and the shared movement state (`js/controls.js`) -/

/-- The top-level `currentMovement` record written by `setMovement`
(controls.js lines 151-176). The stop branch sets `angle`/`distance` to 0;
the non-stop branch leaves both fields absent (hence `Option`). -/
structure GlobalMovement where
  direction : Direction
  angle : Option ℚ
  distance : Option ℚ
  speed : ℤ
deriving DecidableEq, Repr

/-- The page state seen by the keyboard adapter: the shared movement record,
the speed-slider value, the trace of sent commands (newest first), and the
direction highlighted by `updateButtonState`. -/
structure KbWorld where
  movement : GlobalMovement
  slider : ℤ
  sent : List Command
  buttonState : Direction
deriving DecidableEq, Repr

/-- `setMovement(direction)` (controls.js lines 151-176): reads the slider,
overwrites `currentMovement` (resetting angle/distance only on stop), sends
one `(direction, speed)` command, and updates the button highlight. -/
def setMovement (d : Direction) (w : KbWorld) : KbWorld :=
  let speed := w.slider
  let m : GlobalMovement :=
    if d = .stop then { direction := d, angle := some 0, distance := some 0, speed := speed }
    else { direction := d, angle := none, distance := none, speed := speed }
  { w with movement := m, sent := (d, speed) :: w.sent, buttonState := d }

/-- The keys the keyboard adapter distinguishes. -/
inductive Key
  | arrowUp
  | arrowDown
  | arrowLeft
  | arrowRight
  | space
  | other
deriving DecidableEq, Repr

/-- `handleKeyDown` (controls.js lines 199-227): ignored when focus is in an
input/textarea/select control (abstracted as `targetIsInput`); otherwise each
arrow key maps to `setMovement` with its direction and space to stop. Every
key-down event runs the full body — there is no repeat guard. -/
def handleKeyDown (k : Key) (targetIsInput : Bool) (w : KbWorld) : KbWorld :=
  if targetIsInput then w
  else
    match k with
    | .arrowUp => setMovement .forward w
    | .arrowDown => setMovement .backward w
    | .arrowLeft => setMovement .left w
    | .arrowRight => setMovement .right w
    | .space => setMovement .stop w
    | .other => w

/-- The directional-key test of `handleKeyUp` (controls.js line 235). -/
def isArrowKey (k : Key) : Bool :=
  k = .arrowUp || k = .arrowDown || k = .arrowLeft || k = .arrowRight

/-- `handleKeyUp` (controls.js lines 229-238): ignored in input controls;
otherwise any directional key-up calls `setMovement('stop')` — the handler
does not track which key is currently held. -/
def handleKeyUp (k : Key) (targetIsInput : Bool) (w : KbWorld) : KbWorld :=
  if targetIsInput then w
  else if isArrowKey k then setMovement .stop w
  else w

/-- The initial page state: stopped, slider at its HTML default 50. -/
def kbWorld0 : KbWorld :=
  { movement := { direction := .stop, angle := some 0, distance := some 0, speed := 50 }
    slider := 50, sent := [], buttonState := .stop }

/- ### String utilities (JavaScript `includes` / `toLowerCase`) -/

/-- Whether `pat` is a prefix of `s` (character lists). -/
def seqStartsWith : List Char → List Char → Bool
  | _, [] => true
  | [], _ :: _ => false
  | c :: s, p :: ps => c = p && seqStartsWith s ps

/-- Whether `pat` occurs as a contiguous substring of `s` (character lists). -/
def seqContains : List Char → List Char → Bool
  | [], pat => pat.isEmpty
  | s@(_ :: rest), pat => seqStartsWith s pat || seqContains rest pat

/-- JavaScript `s.includes(pat)`: contiguous substring test. -/
def strIncludes (s pat : String) : Bool :=
  seqContains s.data pat.data

/-- JavaScript `s.toLowerCase()` for the ASCII commands in play. -/
def lowerStr (s : String) : String :=
  String.mk (s.data.map Char.toLower)

/- ### Voice command adapter (`js/voice.js` `executeVoiceCommand`, lines
136-184) and the navigate button (`js/map.js` `startNavigation`, lines
326-351) -/

/-- The buttons clicked by `executeVoiceCommand`. -/
inductive BtnId
  | forwardBtn
  | leftBtn
  | rightBtn
  | backwardBtn
  | stopBtn
  | navigateBtn
  | startMappingBtn
  | saveMapBtn
  | loadMapBtn
deriving DecidableEq, Repr

/-- World state for the voice adapter: a millisecond clock, the pending
`setTimeout` timers (fire time and the button their callback clicks), the
click log (newest first), the destination `<select>` value, and the
destinations passed to the navigation API (newest first). -/
structure VoiceWorld where
  now : ℕ
  pending : List (ℕ × BtnId)
  clicks : List (ℕ × BtnId)
  destSelect : String
  navCalls : List String
deriving DecidableEq, Repr

/-- `document.getElementById(b).click()`: log the click. -/
def clickBtn (b : BtnId) (w : VoiceWorld) : VoiceWorld :=
  { w with clicks := (w.now, b) :: w.clicks }

/-- `setTimeout(() => stop-btn.click(), 2000)` (voice.js lines 143/146/149/152):
schedule a stop click 2000 ms from now. The return value of `setTimeout` is
discarded by the code, and no `clearTimeout` in the repository targets these
timers, so nothing ever removes the entry. -/
def scheduleAutoStop (w : VoiceWorld) : VoiceWorld :=
  { w with pending := (w.now + 2000, BtnId.stopBtn) :: w.pending }

/-- Clicking the navigate button runs `startNavigation` (map.js lines
326-351): with an empty selection it refuses; otherwise it issues one
navigation API call for the selected destination. -/
def clickNavigate (w : VoiceWorld) : VoiceWorld :=
  let w1 := clickBtn .navigateBtn w
  if w1.destSelect = "" then w1
  else { w1 with navCalls := w1.destSelect :: w1.navCalls }

/-- The location lookup of the go-to branch (voice.js lines 161-168): the
first matching known location overwrites the destination select; otherwise
the select is left as it was. -/
def gotoDest (cmd : String) (w : VoiceWorld) : VoiceWorld :=
  if strIncludes cmd "living room" then { w with destSelect := "living-room" }
  else if strIncludes cmd "kitchen" then { w with destSelect := "kitchen" }
  else if strIncludes cmd "bedroom" then { w with destSelect := "bedroom" }
  else w

/-- The full go-to branch (voice.js lines 158-174): update the select, then
`if (destinationSelect.value) navigate-btn.click()` — the guard checks the
current select value, matched or stale. -/
def gotoBranch (cmd : String) (w : VoiceWorld) : VoiceWorld :=
  let w1 := gotoDest cmd w
  if w1.destSelect = "" then w1 else clickNavigate w1

/-- `executeVoiceCommand(command)` (voice.js lines 136-184): lowercase the
utterance, then run the first matching branch of the keyword chain. The four
movement branches click their button and schedule an auto-stop; the stop
branch only clicks; then navigation, then the mapping commands. -/
def executeVoiceCommand (command : String) (w : VoiceWorld) : VoiceWorld :=
  let cmd := lowerStr command
  if strIncludes cmd "forward" || strIncludes cmd "ahead" then
    scheduleAutoStop (clickBtn .forwardBtn w)
  else if strIncludes cmd "left" then scheduleAutoStop (clickBtn .leftBtn w)
  else if strIncludes cmd "right" then scheduleAutoStop (clickBtn .rightBtn w)
  else if strIncludes cmd "back" then scheduleAutoStop (clickBtn .backwardBtn w)
  else if strIncludes cmd "stop" then clickBtn .stopBtn w
  else if strIncludes cmd "go to" then gotoBranch cmd w
  else if strIncludes cmd "start mapping" then clickBtn .startMappingBtn w
  else if strIncludes cmd "save map" || strIncludes cmd "save the map" then clickBtn .saveMapBtn w
  else if strIncludes cmd "load map" || strIncludes cmd "load the map" then clickBtn .loadMapBtn w
  else w

/-- Advance the event-loop clock to `t` and deliver every pending timer that
has come due (its callback clicks the recorded button). -/
def fireDue (t : ℕ) (w : VoiceWorld) : VoiceWorld :=
  { w with
    now := t
    pending := w.pending.filter (fun p => decide (t < p.1))
    clicks := (w.pending.filter (fun p => decide (p.1 ≤ t))) ++ w.clicks }

/-- The initial voice world: clock at 0, no timers, empty destination select
(the HTML default option has value `""`). -/
def voiceWorld0 : VoiceWorld :=
  { now := 0, pending := [], clicks := [], destSelect := "", navCalls := [] }

/-- Whether the utterance hits one of the four scheduling movement branches
(the conditions of voice.js lines 141-152 on the lowercased command). -/
def isMovementUtterance (command : String) : Bool :=
  let cmd := lowerStr command
  (strIncludes cmd "forward" || strIncludes cmd "ahead") ||
    (strIncludes cmd "left" || (strIncludes cmd "right" || strIncludes cmd "back"))

/- ### API call envelope (`js/main.js` `callApi`, lines 341-366) and the
movement dispatcher (`js/controls.js` `sendMovementCommand`, lines 179-196) -/

/-- The parsed JSON body of a motion-service response. -/
structure ApiResponse where
  success : Bool
  error : Option String
deriving DecidableEq, Repr

/-- Outcome of the `fetch` inside `callApi`: a parsed 2xx response, a non-ok
HTTP status, or a rejected fetch (network failure) with its error message. -/
inductive FetchOutcome
  | ok (body : ApiResponse)
  | httpError (status : ℕ)
  | networkError (msg : String)
deriving DecidableEq, Repr

/-- The try-block body of `callApi` (main.js lines 343-361): `fetch`, the
`response.ok` check (`throw new Error('API call failed: ' + status)`), and
`response.json()`. An exception propagates as `Except.error` with the
message of the thrown error. -/
def fetchResult (o : FetchOutcome) : Except String ApiResponse :=
  match o with
  | .ok body => .ok body
  | .httpError status => .error ("API call failed: " ++ toString status)
  | .networkError msg => .error msg

/-- `callApi` (main.js lines 341-366): the catch clause converts any thrown
error into the value `{success: false, error: error.message}`, so the caller
always receives a plain response value. -/
def callApi (o : FetchOutcome) : ApiResponse :=
  match fetchResult o with
  | .ok r => r
  | .error msg => { success := false, error := some msg }

/-- What `sendMovementCommand` logs about the response. -/
inductive LogEntry
  | movementSentOk
  | movementSendFailed (err : Option String)
deriving DecidableEq, Repr

/-- `sendMovementCommand` (controls.js lines 179-196) as seen from the page
state: it performs exactly one `callApi`, logs success or failure, and neither
reads nor writes the movement state (the function body never touches
`currentMovement` and never retries). Returns (unchanged state, log, number
of API calls made). -/
def dispatchMovement (w : KbWorld) (o : FetchOutcome) : KbWorld × LogEntry × ℕ :=
  let resp := callApi o
  (w, (if resp.success then .movementSentOk else .movementSendFailed resp.error), 1)

/- ### Helper lemmas -/

theorem runMoves_pres (ss : List MoveSample) (st : JoyState) (h : st.isDragging = true) :
    (runMoves ss st).isDragging = true ∧
    (runMoves ss st).movement.speed = st.movement.speed := by
  induction ss generalizing st with
  | nil => exact ⟨h, rfl⟩
  | cons s ss ih =>
      have hstep : (handleMove s st).1.isDragging = true ∧
          (handleMove s st).1.movement.speed = st.movement.speed := by
        simp [handleMove, h]
      obtain ⟨h1, h2⟩ := ih (handleMove s st).1 hstep.1
      exact ⟨h1, h2.trans hstep.2⟩

theorem clickBtn_pending (b : BtnId) (w : VoiceWorld) : (clickBtn b w).pending = w.pending := rfl

theorem clickBtn_now (b : BtnId) (w : VoiceWorld) : (clickBtn b w).now = w.now := rfl

theorem scheduleAutoStop_pending (w : VoiceWorld) :
    (scheduleAutoStop w).pending = (w.now + 2000, BtnId.stopBtn) :: w.pending := rfl

theorem clickNavigate_pending (w : VoiceWorld) : (clickNavigate w).pending = w.pending := by
  unfold clickNavigate
  dsimp only
  split_ifs <;> rfl

theorem clickNavigate_destSelect (w : VoiceWorld) :
    (clickNavigate w).destSelect = w.destSelect := by
  unfold clickNavigate
  dsimp only
  split_ifs <;> rfl

theorem clickNavigate_navCalls (w : VoiceWorld) :
    (clickNavigate w).navCalls =
      (if w.destSelect = "" then w.navCalls else w.destSelect :: w.navCalls) := by
  unfold clickNavigate clickBtn
  split_ifs <;> simp_all

theorem gotoDest_pending (cmd : String) (w : VoiceWorld) :
    (gotoDest cmd w).pending = w.pending := by
  unfold gotoDest
  split_ifs <;> rfl

theorem gotoBranch_pending (cmd : String) (w : VoiceWorld) :
    (gotoBranch cmd w).pending = w.pending := by
  unfold gotoBranch
  dsimp only
  split_ifs with h
  · exact gotoDest_pending cmd w
  · rw [clickNavigate_pending]
    exact gotoDest_pending cmd w

/-- Every movement utterance takes one of the four scheduling branches of
`executeVoiceCommand`, each of which pushes a `(now + 2000, stop)` timer. -/
theorem voice_move_schedules (w : VoiceWorld) (c : String) (h : isMovementUtterance c = true) :
    (executeVoiceCommand c w).pending = (w.now + 2000, BtnId.stopBtn) :: w.pending := by
  unfold isMovementUtterance at h
  simp only [Bool.or_eq_true] at h
  unfold executeVoiceCommand
  by_cases h1 : (strIncludes (lowerStr c) "forward" || strIncludes (lowerStr c) "ahead") = true
  · simp [h1, clickBtn, scheduleAutoStop]
  · have h1f : (strIncludes (lowerStr c) "forward" || strIncludes (lowerStr c) "ahead") = false :=
      Bool.not_eq_true _ |>.mp h1
    obtain ⟨hf, ha⟩ := Bool.or_eq_false_iff.mp h1f
    by_cases h2 : strIncludes (lowerStr c) "left" = true
    · simp [h1f, h2, clickBtn, scheduleAutoStop]
    · by_cases h3 : strIncludes (lowerStr c) "right" = true
      · simp [h1f, h2, h3, clickBtn, scheduleAutoStop]
      · have h4 : strIncludes (lowerStr c) "back" = true := by
          rcases h with (hx | hx) | (hx | (hx | hx))
          · exact absurd hx (by simp [hf])
          · exact absurd hx (by simp [ha])
          · exact absurd hx h2
          · exact absurd hx h3
          · exact hx
        simp [h1f, h2, h3, h4, clickBtn, scheduleAutoStop]

/-- No branch of `executeVoiceCommand` ever removes a pending timer: the code
discards the `setTimeout` handle and contains no `clearTimeout` for it. -/
theorem executeVoiceCommand_pending_mono (c : String) (w : VoiceWorld) (p : ℕ × BtnId)
    (hp : p ∈ w.pending) : p ∈ (executeVoiceCommand c w).pending := by
  unfold executeVoiceCommand
  dsimp only
  split_ifs <;>
    simp [scheduleAutoStop, clickBtn, gotoBranch_pending, hp]

/- ### Claim theorems -/

/-- C1, counterexample: at the exact center `(dx, dy) = (0, 0)` the distance
is 0 and `Math.atan2(0,0) = 0`, so `updateMovement` buckets 0° to `right` and
the move event issues the command `(right, 0)` — a directional command with
zero speed, not the stop command the claim requires. -/
theorem center_move_cex :
    moveSampleOfOffset 0 0 = some ⟨0, 0⟩ ∧
    (handleMove ⟨0, 0⟩ joyDragging50).2 = [(Direction.right, 0)] ∧
    Direction.right ≠ Direction.stop := by
  refine ⟨by decide, ?_, by decide⟩
  norm_num [handleMove, joyDragging50, updateMovementCmd, classifyDirection, maxDistance, round_eq]

/-- C1, amended: `updateMovement` has no distance-zero override. A move event
at the exact center issues `(right, 0)` (the bucket of 0° with scaled speed
0), the stored magnitude is 0, and the classifier can never return `stop` for
any angle. -/
theorem center_move_amended (st : JoyState) (h : st.isDragging = true) :
    (handleMove ⟨0, 0⟩ st).2 = [(Direction.right, 0)] ∧
    (handleMove ⟨0, 0⟩ st).1.movement.distance = 0 ∧
    (∀ a : ℚ, classifyDirection a ≠ Direction.stop) := by
  refine ⟨?_, ?_, ?_⟩
  · norm_num [handleMove, h, updateMovementCmd, classifyDirection, maxDistance, round_eq]
  · norm_num [handleMove, h, maxDistance]
  · intro a
    unfold classifyDirection
    split_ifs <;> decide

/-- C1, witness for the amended theorem at the concrete dragging state. -/
theorem center_move_amended_witness :
    (handleMove ⟨0, 0⟩ joyDragging50).2 = [(Direction.right, 0)] ∧
    (handleMove ⟨0, 0⟩ joyDragging50).1.movement.distance = 0 ∧
    (∀ a : ℚ, classifyDirection a ≠ Direction.stop) :=
  center_move_amended joyDragging50 rfl

/-- C2, counterexample: press ArrowUp, press ArrowRight, then release the
stale ArrowUp — `handleKeyUp` stops on any directional key-up, so the state
direction is `stop`, not the `right` the claim requires. -/
theorem stale_keyup_cex :
    (handleKeyUp .arrowUp false
        (handleKeyDown .arrowRight false
          (handleKeyDown .arrowUp false kbWorld0))).movement.direction
      = Direction.stop ∧
    Direction.stop ≠ Direction.right := by
  constructor
  · decide
  · decide

/-- C2, amended: the keyboard adapter stores no held key; releasing any
directional key (with focus outside input controls) always transitions the
state to `stop` and issues one `(stop, slider)` command — including a stale
key released while a second key is still held. -/
theorem stale_keyup_amended (w : KbWorld) (k : Key) (h : isArrowKey k = true) :
    (handleKeyUp k false w).movement.direction = Direction.stop ∧
    (handleKeyUp k false w).sent = (Direction.stop, w.slider) :: w.sent := by
  constructor <;> simp [handleKeyUp, h, setMovement]

/-- C2, witness for the amended theorem: releasing ArrowUp on the initial
page state. -/
theorem stale_keyup_amended_witness :
    (handleKeyUp .arrowUp false kbWorld0).movement.direction = Direction.stop ∧
    (handleKeyUp .arrowUp false kbWorld0).sent
      = (Direction.stop, kbWorld0.slider) :: kbWorld0.sent :=
  stale_keyup_amended kbWorld0 .arrowUp rfl

/-- C3, counterexample: two ArrowUp key-down events with no intervening
key-up (OS key-repeat) send two identical `(forward, 50)` commands — the
repeat is not suppressed, contradicting the claim that only the first down
issues a command. -/
theorem key_repeat_cex :
    (handleKeyDown .arrowUp false (handleKeyDown .arrowUp false kbWorld0)).sent
      = [(Direction.forward, 50), (Direction.forward, 50)] ∧
    [(Direction.forward, 50), (Direction.forward, 50)].length ≠ 1 := by
  constructor <;> decide

/-- C3, amended: every key-down of a held arrow key runs `setMovement`, so n
repeated ArrowUp downs issue n identical `(forward, slider)` commands (there
is no idempotence guard); the key-up remains authoritative and transitions to
`stop` regardless of how many downs preceded it. -/
theorem key_repeat_amended (w : KbWorld) (n : ℕ) :
    (Nat.iterate (handleKeyDown .arrowUp false) n w).sent
      = List.replicate n (Direction.forward, w.slider) ++ w.sent ∧
    (handleKeyUp .arrowUp false
        (Nat.iterate (handleKeyDown .arrowUp false) n w)).movement.direction
      = Direction.stop := by
  have hstep : ∀ v : KbWorld, (handleKeyDown .arrowUp false v).sent
      = (Direction.forward, v.slider) :: v.sent ∧
      (handleKeyDown .arrowUp false v).slider = v.slider := by
    intro v
    constructor <;> simp [handleKeyDown, setMovement]
  have main : ∀ m : ℕ, ∀ v : KbWorld,
      (Nat.iterate (handleKeyDown .arrowUp false) m v).sent
        = List.replicate m (Direction.forward, v.slider) ++ v.sent ∧
      (Nat.iterate (handleKeyDown .arrowUp false) m v).slider = v.slider := by
    intro m
    induction m with
    | zero => intro v; simp [Nat.iterate]
    | succ m ih =>
        intro v
        have h1 := hstep v
        have h2 := ih (handleKeyDown .arrowUp false v)
        rw [Function.iterate_succ_apply]
        refine ⟨?_, ?_⟩
        · rw [h2.1, h1.1, h1.2]
          simp [List.replicate_succ', List.append_assoc]
        · rw [h2.2, h1.2]
  refine ⟨(main n w).1, ?_⟩
  simp [handleKeyUp, isArrowKey, setMovement]

/-- C4, counterexample: the boundary angle 45° satisfies the first bucket
condition `angleDeg > -45 && angleDeg <= 45`, so the classifier returns
`right` — not the `backward` membership the claim asserts for 45°. -/
theorem bucket_45_cex :
    classifyDirection 45 = Direction.right ∧ Direction.right ≠ Direction.backward := by
  constructor
  · norm_num [classifyDirection]
  · decide

/-- C4, amended: the convention is upper-inclusive `(lo, hi]` at every
boundary: all of (−45,45] maps to `right` (45 included), 135 to `backward`,
−45 to `forward`, and −135 to `left`. -/
theorem bucket_amended :
    (∀ a : ℚ, -45 < a → a ≤ 45 → classifyDirection a = Direction.right) ∧
    classifyDirection 45 = Direction.right ∧
    classifyDirection 135 = Direction.backward ∧
    classifyDirection (-45) = Direction.forward ∧
    classifyDirection (-135) = Direction.left := by
  refine ⟨fun a h1 h2 => ?_, ?_, ?_, ?_, ?_⟩
  · unfold classifyDirection
    rw [if_pos ⟨h1, h2⟩]
  all_goals norm_num [classifyDirection]

/-- C4, witness for the amended theorem at the interior angle 0. -/
theorem bucket_amended_witness : classifyDirection 0 = Direction.right :=
  bucket_amended.1 0 (by norm_num) (by norm_num)

/-- C5, counterexample: the utterance "go forward" schedules a stop click at
t = 2000 ms; a subsequent explicit stop command ("stop") leaves the timer
pending — the handle is discarded and never canceled — and at t = 2000 the
auto-stop still fires, clicking stop again after the explicit stop. -/
theorem voice_autostop_cex :
    (executeVoiceCommand "stop" (executeVoiceCommand "go forward" voiceWorld0)).pending
      = [(2000, BtnId.stopBtn)] ∧
    (fireDue 2000 (executeVoiceCommand "stop" (executeVoiceCommand "go forward" voiceWorld0))).clicks
      = [(2000, BtnId.stopBtn), (0, BtnId.stopBtn), (0, BtnId.forwardBtn)] := by
  constructor <;> decide

/-- C5, amended: a movement voice command does schedule an automatic stop
2000 ms later, but the timer is never stored or canceled: issuing any further
voice command afterwards leaves that timer pending, so it fires even when the
movement has already been superseded. -/
theorem voice_autostop_amended (w : VoiceWorld) (c1 c2 : String)
    (h : isMovementUtterance c1 = true) :
    (executeVoiceCommand c1 w).pending = (w.now + 2000, BtnId.stopBtn) :: w.pending ∧
    (w.now + 2000, BtnId.stopBtn) ∈ (executeVoiceCommand c2 (executeVoiceCommand c1 w)).pending := by
  have h1 := voice_move_schedules w c1 h
  refine ⟨h1, executeVoiceCommand_pending_mono c2 _ _ ?_⟩
  rw [h1]
  exact List.mem_cons_self _ _

/-- C5, witness for the amended theorem: "go forward" then "stop". -/
theorem voice_autostop_amended_witness :
    (executeVoiceCommand "go forward" voiceWorld0).pending
      = (voiceWorld0.now + 2000, BtnId.stopBtn) :: voiceWorld0.pending ∧
    (voiceWorld0.now + 2000, BtnId.stopBtn)
      ∈ (executeVoiceCommand "stop" (executeVoiceCommand "go forward" voiceWorld0)).pending :=
  voice_autostop_amended voiceWorld0 "go forward" "stop" (by decide)

/-- C6: releasing the joystick after any sequence of intermediate moves from a
dragging state resets the movement record to angle 0, distance 0 with the
cruise speed preserved, highlights stop, and issues exactly the one command
`(stop, 0)`. -/
theorem joystick_release_resets (st : JoyState) (ss : List MoveSample)
    (h : st.isDragging = true) :
    (handleEnd (runMoves ss st)).1 =
      { isDragging := false
        movement := { angle := 0, distance := 0, speed := st.movement.speed }
        buttonState := .stop } ∧
    (handleEnd (runMoves ss st)).2 = [(Direction.stop, 0)] := by
  obtain ⟨hd, hs⟩ := runMoves_pres ss st h
  constructor <;> simp [handleEnd, hd, hs]

/-- C6, witness: a concrete drag with two intermediate moves. -/
theorem joystick_release_resets_witness :
    (handleEnd (runMoves [⟨0, 10⟩, ⟨90, 20⟩] joyDragging50)).1 =
      { isDragging := false
        movement := { angle := 0, distance := 0, speed := joyDragging50.movement.speed }
        buttonState := .stop } ∧
    (handleEnd (runMoves [⟨0, 10⟩, ⟨90, 20⟩] joyDragging50)).2 = [(Direction.stop, 0)] :=
  joystick_release_resets joyDragging50 [⟨0, 10⟩, ⟨90, 20⟩] rfl

/-- C7: the implemented bucket chain agrees with the four buckets of the spec
on every angle in (−180,180]; a move while dragging stores magnitude
`min(dist, R)/R` and sends the bucket direction with speed
`round(speedPercent * magnitude)`; and the spec §8 scenario — slider 80,
offset (40,0), radius 50 — yields magnitude 4/5 and the command (right, 64). -/
theorem move_pipeline :
    (∀ a : ℚ, -180 < a → a ≤ 180 → classifyDirection a = specBucket a) ∧
    (∀ (s : MoveSample) (st : JoyState), st.isDragging = true →
        (handleMove s st).1.movement.distance = min s.dist maxDistance / maxDistance ∧
        (handleMove s st).2 =
          [(classifyDirection s.angleDeg,
            round ((st.movement.speed : ℚ) * (min s.dist maxDistance / maxDistance)))]) ∧
    (moveSampleOfOffset 40 0 = some ⟨0, 40⟩ ∧
     (handleMove ⟨0, 40⟩ joyScenario80).1.movement.distance = 4/5 ∧
     (handleMove ⟨0, 40⟩ joyScenario80).2 = [(Direction.right, 64)]) := by
  refine ⟨fun a h1 h2 => ?_, fun s st h => ?_, by decide, ?_, ?_⟩
  · unfold classifyDirection specBucket
    by_cases hc1 : -45 < a ∧ a ≤ 45
    · rw [if_pos hc1, if_pos hc1]
    · rw [if_neg hc1, if_neg hc1]
      by_cases hc2 : 45 < a ∧ a ≤ 135
      · rw [if_pos hc2, if_pos hc2]
      · rw [if_neg hc2, if_neg hc2]
        by_cases hc3 : 135 < a ∨ a ≤ -135
        · rw [if_pos hc3]
          have hs : (135 < a ∧ a ≤ 180) ∨ (-180 < a ∧ a ≤ -135) := by
            rcases hc3 with h | h
            · exact Or.inl ⟨h, h2⟩
            · exact Or.inr ⟨h1, h⟩
          rw [if_pos hs]
        · rw [if_neg hc3]
          have hs : ¬((135 < a ∧ a ≤ 180) ∨ (-180 < a ∧ a ≤ -135)) := by
            rintro (⟨h, _⟩ | ⟨_, h⟩) <;> exact hc3 (by tauto)
          rw [if_neg hs]
  · constructor <;> simp [handleMove, h, updateMovementCmd]
  · norm_num [handleMove, joyScenario80, maxDistance]
  · norm_num [handleMove, joyScenario80, updateMovementCmd, classifyDirection, maxDistance,
      round_eq]

/-- C7, witness: the bucket agreement at 17° and the magnitude formula on a
concrete dragging move. -/
theorem move_pipeline_witness :
    classifyDirection 17 = specBucket 17 ∧
    (handleMove ⟨17, 10⟩ joyDragging50).1.movement.distance = min 10 maxDistance / maxDistance :=
  ⟨move_pipeline.1 17 (by norm_num) (by norm_num),
   (move_pipeline.2.1 ⟨17, 10⟩ joyDragging50 rfl).1⟩

/-- C8, counterexample: "go to the kitchen" sets the select and navigates to
kitchen; the follow-up "go to the garage" matches no known location, yet the
stale select value "kitchen" passes the `if (destinationSelect.value)` guard
and a second navigate call is made — contradicting "no navigate call" for
unmatched locations. -/
theorem voice_goto_cex :
    (executeVoiceCommand "go to the kitchen" voiceWorld0).destSelect = "kitchen" ∧
    (executeVoiceCommand "go to the kitchen" voiceWorld0).navCalls = ["kitchen"] ∧
    (executeVoiceCommand "go to the garage"
        (executeVoiceCommand "go to the kitchen" voiceWorld0)).navCalls
      = ["kitchen", "kitchen"] := by
  refine ⟨by decide, by decide, by decide⟩

/-- C8, amended: for an utterance that reaches the navigation branch (contains
"go to" and none of the earlier movement/stop keywords): a mentioned known
location (here kitchen) is stored in the select and one navigate call is made
with it; when no known location matches, the select is unchanged and a
navigate call is made exactly when the select already holds a non-empty
(possibly stale) destination — only an empty selection suppresses the call. -/
theorem voice_goto_amended (w : VoiceWorld) (c : String)
    (hm : isMovementUtterance c = false)
    (hs : strIncludes (lowerStr c) "stop" = false)
    (hg : strIncludes (lowerStr c) "go to" = true) :
    (strIncludes (lowerStr c) "living room" = false →
     strIncludes (lowerStr c) "kitchen" = true →
       (executeVoiceCommand c w).destSelect = "kitchen" ∧
       (executeVoiceCommand c w).navCalls = "kitchen" :: w.navCalls) ∧
    (strIncludes (lowerStr c) "living room" = false →
     strIncludes (lowerStr c) "kitchen" = false →
     strIncludes (lowerStr c) "bedroom" = false →
       (executeVoiceCommand c w).destSelect = w.destSelect ∧
       (executeVoiceCommand c w).navCalls =
         (if w.destSelect = "" then w.navCalls else w.destSelect :: w.navCalls)) := by
  unfold isMovementUtterance at hm
  simp only [Bool.or_eq_false_iff] at hm
  obtain ⟨⟨hf, ha⟩, hl, hr, hb⟩ := hm
  have h1f : (strIncludes (lowerStr c) "forward" || strIncludes (lowerStr c) "ahead") = false :=
    Bool.or_eq_false_iff.mpr ⟨hf, ha⟩
  have hexec : executeVoiceCommand c w = gotoBranch (lowerStr c) w := by
    unfold executeVoiceCommand
    simp [h1f, hl, hr, hb, hs, hg]
  rw [hexec]
  constructor
  · intro hlr hk
    unfold gotoBranch gotoDest
    simp only [hlr, hk, if_true, if_false, Bool.false_eq_true, Bool.true_eq_false]
    simp [clickNavigate, clickBtn]
  · intro hlr hk hbr
    unfold gotoBranch gotoDest
    simp only [hlr, hk, hbr]
    by_cases hd : w.destSelect = "" <;>
      simp [hd, clickNavigate_navCalls, clickNavigate_destSelect]

/-- C8, witness for the amended theorem: the kitchen utterance on the initial
world, and an unmatched utterance on the initial (empty-select) world. -/
theorem voice_goto_amended_witness :
    (executeVoiceCommand "go to the kitchen" voiceWorld0).destSelect = "kitchen" ∧
    (executeVoiceCommand "go to the garage" voiceWorld0).navCalls =
      (if voiceWorld0.destSelect = "" then voiceWorld0.navCalls
       else voiceWorld0.destSelect :: voiceWorld0.navCalls) :=
  ⟨((voice_goto_amended voiceWorld0 "go to the kitchen" (by decide) (by decide) (by decide)).1
      (by decide) (by decide)).1,
   ((voice_goto_amended voiceWorld0 "go to the garage" (by decide) (by decide) (by decide)).2
      (by decide) (by decide) (by decide)).2⟩

/-- C9: any exception in the fetch/ok-check/parse path of `callApi` is caught
and surfaced as the value `{success: false, error: message}`; a movement
dispatch performs exactly one API call and leaves the page state untouched
for every outcome (no rollback, no resend); and the §8 scenario — a `left`
command answered by `{success:false, error:"timeout"}` — leaves the local
direction `left` and logs the failure. -/
theorem api_failure_enveloped :
    (∀ (o : FetchOutcome) (msg : String), fetchResult o = .error msg →
        callApi o = { success := false, error := some msg }) ∧
    (∀ (w : KbWorld) (o : FetchOutcome),
        (dispatchMovement w o).1 = w ∧ (dispatchMovement w o).2.2 = 1) ∧
    ((dispatchMovement (setMovement .left kbWorld0)
        (.ok { success := false, error := some "timeout" })).1.movement.direction
      = Direction.left ∧
     (dispatchMovement (setMovement .left kbWorld0)
        (.ok { success := false, error := some "timeout" })).2.1
      = LogEntry.movementSendFailed (some "timeout")) := by
  refine ⟨fun o msg h => ?_, fun w o => ⟨rfl, rfl⟩, by decide, by decide⟩
  unfold callApi
  rw [h]

/-- C9, witness: a network failure with message "timeout" comes back as a
failure value. -/
theorem api_failure_enveloped_witness :
    callApi (.networkError "timeout") = { success := false, error := some "timeout" } :=
  api_failure_enveloped.1 (.networkError "timeout") "timeout" rfl

/-- C10: while no drag is active, `handleMove` and `handleEnd` return the
state unchanged and send no command, even though they are wired to
document-level mousemove/mouseup/touchmove/touchend events. -/
theorem idle_pointer_noop (s : MoveSample) (st : JoyState) (h : st.isDragging = false) :
    handleMove s st = (st, []) ∧ handleEnd st = (st, []) := by
  constructor <;> simp [handleMove, handleEnd, h]

/-- C10, witness: a pointer event anywhere on the page while idle. -/
theorem idle_pointer_noop_witness :
    handleMove ⟨33, 7⟩ joyIdle = (joyIdle, []) ∧ handleEnd joyIdle = (joyIdle, []) :=
  idle_pointer_noop ⟨33, 7⟩ joyIdle rfl

end SheikahCar
